import Mathlib

/-!
Verification development for the BlueNet boundary-crossing engine
(`geofencing.py`).  The engine core is embedded shallowly: Python floats
become rationals, the polygon containment test and the pairwise geodesic
distance of the external geometry libraries become function parameters,
and the mutable session fields of `BoundaryCrossingEngine` become an
explicit state record threaded through each operation.
-/

namespace Geofencing

/-- Configuration constants of the `Config` class that the engine core
reads: `CALL_COOLDOWN_SECONDS` and `MAX_EMERGENCY_CALLS`. -/
structure EngineConfig where
  call_cooldown_seconds : ℚ
  max_emergency_calls : ℕ
  deriving DecidableEq

/-- The values the source fixes: cooldown 30 seconds, at most 3 calls per
crossing event. -/
def defaultConfig : EngineConfig :=
  { call_cooldown_seconds := 30, max_emergency_calls := 3 }

/-- The mutable session fields of `BoundaryCrossingEngine`.
`last_call_time` is a Python float-or-None; note that Python truthiness
makes the float value `0.0` behave like `None` in the throttle check. -/
structure EngineState where
  current_inside_boundary : Bool
  last_inside_boundary : Bool
  boundary_crossings : ℕ
  last_call_time : Option ℚ
  calls_for_current_crossing : ℕ
  deriving DecidableEq

/-- State set by `BoundaryCrossingEngine._init_`: the session starts with
the assumption that the vessel is inside the region. -/
def initState : EngineState :=
  { current_inside_boundary := true
    last_inside_boundary := true
    boundary_crossings := 0
    last_call_time := none
    calls_for_current_crossing := 0 }

/-- The two `crossing_direction` strings of `process_gps`,
`"ENTERED_INDIAN_WATERS"` and `"EXITED_INDIAN_WATERS"`, as an enum. -/
inductive CrossingDirection where
  | entered_indian_waters
  | exited_indian_waters
  deriving DecidableEq

/-- The decision record returned by `process_gps` (the database event id
and the echoed session id are dropped as external concerns). -/
structure GpsResult where
  latitude : ℚ
  longitude : ℚ
  inside_boundary : Bool
  boundary_crossed : Bool
  crossing_direction : Option CrossingDirection
  distance_to_boundary : ℚ
  total_crossings : ℕ
  requires_emergency_call : Bool
  deriving DecidableEq

/-- Embedding of `BoundaryCrossingEngine._should_make_emergency_call`.  The Python
guard `if self.last_call_time and (current_time - self.last_call_time) <
Config.CALL_COOLDOWN_SECONDS` evaluates the cooldown comparison only when
`last_call_time` is truthy, i.e. not `None` and not the float `0.0`. -/
def should_make_emergency_call (cfg : EngineConfig) (s : EngineState)
    (current_time : ℚ) : Bool :=
  if cfg.max_emergency_calls ≤ s.calls_for_current_crossing then
    false
  else
    match s.last_call_time with
    | none => true
    | some t =>
      if t ≠ 0 ∧ current_time - t < cfg.call_cooldown_seconds then false
      else true

/-- The inner loop of `_calculate_boundary_distance`: for each index
`i` in `range(len(line.coords) - 1)` the code takes the distance to
`coords[i]` and to `coords[i + 1]`.  Interior vertices are listed twice,
exactly as the Python loop computes them. -/
def segment_endpoint_distances (d : ℚ × ℚ → ℚ) : List (ℚ × ℚ) → List ℚ
  | [] => []
  | [_] => []
  | p :: q :: rest => d p :: d q :: segment_endpoint_distances d (q :: rest)

/-- One step of the running minimum that starts at `float("inf")`; `none`
plays the role of infinity. -/
def minFold (acc : Option ℚ) (x : ℚ) : Option ℚ :=
  match acc with
  | none => some x
  | some m => some (min m x)

/-- Running minimum of a list of candidates, `none` when the list is
empty (the `float("inf")` sentinel of the source). -/
def runMin (l : List ℚ) : Option ℚ :=
  l.foldl minFold none

/-- Embedding of `BoundaryCrossingEngine._calculate_boundary_distance`.  Here `geod a b` is
the external `geodesic(a, b).meters` call, taking (latitude, longitude)
pairs; line vertices are stored GeoJSON-style as (longitude, latitude).
If the running minimum is still infinite at the end the code returns 0. -/
def calculate_boundary_distance (geod : ℚ × ℚ → ℚ × ℚ → ℚ)
    (boundary_lines : List (List (ℚ × ℚ))) (lat lon : ℚ) : ℚ :=
  (runMin ((boundary_lines.map
    (segment_endpoint_distances (fun p => geod (lat, lon) (p.2, p.1)))).flatten)).getD 0

/-- Embedding of `BoundaryCrossingEngine.process_gps`.  Here `polygon_contains lon lat` is
the external `self.india_polygon.contains(Point(lon, lat))` test.  The
clock value read by `time.time()` is passed in as `current_time`.  The
emergency-call decision is taken only on the crossed-out edge, against
the already-updated state `s1`. -/
def process_gps (cfg : EngineConfig) (polygon_contains : ℚ → ℚ → Bool)
    (geod : ℚ × ℚ → ℚ × ℚ → ℚ) (boundary_lines : List (List (ℚ × ℚ)))
    (s : EngineState) (lat lon : ℚ) (current_time : ℚ) :
    GpsResult × EngineState :=
  let inside_boundary := polygon_contains lon lat
  let distance_to_boundary := calculate_boundary_distance geod boundary_lines lat lon
  let boundary_crossed := inside_boundary != s.last_inside_boundary
  let crossing_direction : Option CrossingDirection :=
    if boundary_crossed then
      if inside_boundary then some CrossingDirection.entered_indian_waters
      else some CrossingDirection.exited_indian_waters
    else none
  let boundary_crossings :=
    if boundary_crossed then s.boundary_crossings + 1 else s.boundary_crossings
  let calls_for_current_crossing :=
    if boundary_crossed then 0 else s.calls_for_current_crossing
  let s1 : EngineState :=
    { current_inside_boundary := inside_boundary
      last_inside_boundary := inside_boundary
      boundary_crossings := boundary_crossings
      last_call_time := s.last_call_time
      calls_for_current_crossing := calls_for_current_crossing }
  let requires_emergency_call :=
    boundary_crossed && !inside_boundary &&
      should_make_emergency_call cfg s1 current_time
  ({ latitude := lat
     longitude := lon
     inside_boundary := inside_boundary
     boundary_crossed := boundary_crossed
     crossing_direction := crossing_direction
     distance_to_boundary := distance_to_boundary
     total_crossings := boundary_crossings
     requires_emergency_call := requires_emergency_call }, s1)

/-- The error value of the `/gps` endpoint when the coordinate ranges are
invalid (the source returns the JSON body `{"error": "Invalid
coordinates"}` with HTTP status 400). -/
inductive ApiError where
  | invalid_coordinates
  deriving DecidableEq

/-- The `/gps` Flask handler `gps_endpoint`: validate ranges, run the
engine, and on an authorized escalation attempt the external dispatch;
only a successful dispatch commits `last_call_time` (read from the clock
again, passed as `call_commit_time`) and increments the per-crossing call
counter. -/
def gps_endpoint (cfg : EngineConfig) (polygon_contains : ℚ → ℚ → Bool)
    (geod : ℚ × ℚ → ℚ × ℚ → ℚ) (boundary_lines : List (List (ℚ × ℚ)))
    (s : EngineState) (lat lon : ℚ) (obs_time : ℚ)
    (call_success : Bool) (call_commit_time : ℚ) :
    Except ApiError GpsResult × EngineState :=
  if ¬(-90 ≤ lat ∧ lat ≤ 90) ∨ ¬(-180 ≤ lon ∧ lon ≤ 180) then
    (Except.error ApiError.invalid_coordinates, s)
  else
    let p := process_gps cfg polygon_contains geod boundary_lines s lat lon obs_time
    if p.1.requires_emergency_call && call_success then
      (Except.ok p.1,
        { p.2 with
          last_call_time := some call_commit_time
          calls_for_current_crossing := p.2.calls_for_current_crossing + 1 })
    else
      (Except.ok p.1, p.2)

/-- One caller-facing observation: a position, the clock value at
processing time, whether the external dispatch (attempted only when the
engine authorizes a call) would succeed, and the clock value at the
commit point.  Both callers in the source (`gps_endpoint` and
`BoundaryTestingSystem._run_test_scenarios`) follow this pattern. -/
structure Obs where
  lat : ℚ
  lon : ℚ
  time : ℚ
  dispatch_success : Bool
  commit_time : ℚ
  deriving DecidableEq

/-- One observation processed by the engine followed by the caller-side
commit: on `requires_emergency_call` the caller attempts the dispatch and,
only on success, sets `last_call_time` and increments
`calls_for_current_crossing` (lines 658 to 668 and 430 to 441 of the
source). -/
def stepObs (cfg : EngineConfig) (polygon_contains : ℚ → ℚ → Bool)
    (geod : ℚ × ℚ → ℚ × ℚ → ℚ) (boundary_lines : List (List (ℚ × ℚ)))
    (s : EngineState) (o : Obs) : GpsResult × EngineState :=
  let p := process_gps cfg polygon_contains geod boundary_lines s o.lat o.lon o.time
  if p.1.requires_emergency_call && o.dispatch_success then
    (p.1,
      { p.2 with
        last_call_time := some o.commit_time
        calls_for_current_crossing := p.2.calls_for_current_crossing + 1 })
  else
    (p.1, p.2)

/-- Decision records produced by a sequence of observations. -/
def runResults (cfg : EngineConfig) (polygon_contains : ℚ → ℚ → Bool)
    (geod : ℚ × ℚ → ℚ × ℚ → ℚ) (boundary_lines : List (List (ℚ × ℚ))) :
    EngineState → List Obs → List GpsResult
  | _, [] => []
  | s, o :: os =>
    (stepObs cfg polygon_contains geod boundary_lines s o).1 ::
      runResults cfg polygon_contains geod boundary_lines
        (stepObs cfg polygon_contains geod boundary_lines s o).2 os

/-- Session state after a sequence of observations. -/
def runState (cfg : EngineConfig) (polygon_contains : ℚ → ℚ → Bool)
    (geod : ℚ × ℚ → ℚ × ℚ → ℚ) (boundary_lines : List (List (ℚ × ℚ))) :
    EngineState → List Obs → EngineState
  | s, [] => s
  | s, o :: os =>
    runState cfg polygon_contains geod boundary_lines
      (stepObs cfg polygon_contains geod boundary_lines s o).2 os

/-- Strict containment in the demo region polygon created by
`create_demo_boundaries`: the rectangle with corners (68 E, 20 N) and
(75 E, 26 N).  Shapely `polygon.contains` holds exactly on the interior,
so boundary points are excluded. -/
def demoPolygonContains (lon lat : ℚ) : Bool :=
  decide (68 < lon) && decide (lon < 75) && decide (20 < lat) && decide (lat < 26)

/-- The demo India-Pakistan boundary line of `create_demo_boundaries`,
vertices GeoJSON-ordered as (longitude, latitude). -/
def demoBoundaryLine : List (ℚ × ℚ) :=
  [(68, 23), (68, 24), (68, 25), (68, 26)]

/-- The demo boundary-line list loaded at startup. -/
def demoLines : List (List (ℚ × ℚ)) := [demoBoundaryLine]

/-- A concrete stand-in for the external pairwise distance, used to
evaluate the model on closed inputs. -/
def taxicabMeters (a b : ℚ × ℚ) : ℚ :=
  |a.1 - b.1| + |a.2 - b.2|

/-- A pairwise distance that is identically zero, used where a witness
does not care about distances. -/
def zeroGeod : ℚ × ℚ → ℚ × ℚ → ℚ := fun _ _ => 0

/-- The throttle rule exactly as the specification words it, for
comparison with `should_make_emergency_call`: authorize iff the
per-episode counter is below the quota and the last-escalation time is
unset or the cooldown has elapsed. -/
def claimed_throttle_rule (cfg : EngineConfig) (s : EngineState) (now : ℚ) : Bool :=
  decide (s.calls_for_current_crossing < cfg.max_emergency_calls) &&
    (match s.last_call_time with
     | none => true
     | some t => decide (cfg.call_cooldown_seconds ≤ now - t))

/-- A session state whose last call was committed at clock value 0. -/
def zeroTimeState : EngineState :=
  { current_inside_boundary := false
    last_inside_boundary := false
    boundary_crossings := 1
    last_call_time := some 0
    calls_for_current_crossing := 0 }

/-- Minimum of two running minima; `none` is the infinite sentinel. -/
def minCombine : Option ℚ → Option ℚ → Option ℚ
  | none, b => b
  | some a, none => some a
  | some a, some b => some (min a b)

/-- The distance the specification describes: the minimum over all
boundary lines and all vertices of those lines of the pairwise distance
from the position to the vertex, 0 when there is no vertex at all. -/
def vertex_min_distance (geod : ℚ × ℚ → ℚ × ℚ → ℚ)
    (boundary_lines : List (List (ℚ × ℚ))) (lat lon : ℚ) : ℚ :=
  (runMin (boundary_lines.flatten.map (fun p => geod (lat, lon) (p.2, p.1)))).getD 0

/-- A configuration with an escalation quota of one call per episode. -/
def quotaOneConfig : EngineConfig :=
  { call_cooldown_seconds := 30, max_emergency_calls := 1 }

/-- An observation outside the demo region whose successful dispatch
would commit at clock value 0. -/
def outsideObsCommit0 : Obs :=
  { lat := 24, lon := 67, time := 0, dispatch_success := true, commit_time := 0 }

/-- An observation inside the demo region. -/
def insideObs : Obs :=
  { lat := 22, lon := 69, time := 50, dispatch_success := true, commit_time := 50 }

/-- A later observation outside the demo region whose dispatch fails. -/
def outsideObsFail : Obs :=
  { lat := 24, lon := 67, time := 100, dispatch_success := false, commit_time := 100 }

/-- First observation of the sustained-outside scenario: the vessel
crosses out of the demo region at clock 0 and the emergency call is
committed at clock 5. -/
def sustainedOutObs1 : Obs :=
  { lat := 24, lon := 67, time := 0, dispatch_success := true, commit_time := 5 }

/-- Second observation of the sustained-outside scenario: still outside,
970 seconds after the committed call, far beyond the 30-second cooldown. -/
def sustainedOutObs2 : Obs :=
  { lat := 24, lon := 67, time := 975, dispatch_success := true, commit_time := 975 }

/-- The session state after `sustainedOutObs1`: outside, one crossing,
one committed call at clock 5. -/
def sustainedOutState1 : EngineState :=
  { current_inside_boundary := false
    last_inside_boundary := false
    boundary_crossings := 1
    last_call_time := some 5
    calls_for_current_crossing := 1 }

/-- Quota-one scenario, observation 1: crossing out at clock 0, the
authorized dispatch fails. -/
def quotaOneObs1 : Obs :=
  { lat := 24, lon := 67, time := 0, dispatch_success := false, commit_time := 0 }

/-- Quota-one scenario, observation 2: back inside at clock 10. -/
def quotaOneObs2 : Obs :=
  { lat := 22, lon := 69, time := 10, dispatch_success := true, commit_time := 10 }

/-- Quota-one scenario, observation 3: outside again at clock 20, well
within 30 seconds of the failed attempt. -/
def quotaOneObs3 : Obs :=
  { lat := 24, lon := 67, time := 20, dispatch_success := true, commit_time := 20 }

section Equations

variable (cfg : EngineConfig) (pc : ℚ → ℚ → Bool) (geod : ℚ × ℚ → ℚ × ℚ → ℚ)
variable (L : List (List (ℚ × ℚ))) (s : EngineState) (lat lon t : ℚ) (o : Obs)

theorem process_gps_inside :
    (process_gps cfg pc geod L s lat lon t).1.inside_boundary = pc lon lat := rfl

theorem process_gps_crossed :
    (process_gps cfg pc geod L s lat lon t).1.boundary_crossed =
      (pc lon lat != s.last_inside_boundary) := rfl

theorem process_gps_state_last :
    (process_gps cfg pc geod L s lat lon t).2.last_inside_boundary = pc lon lat := rfl

theorem process_gps_state_current :
    (process_gps cfg pc geod L s lat lon t).2.current_inside_boundary = pc lon lat := rfl

theorem process_gps_state_call_time :
    (process_gps cfg pc geod L s lat lon t).2.last_call_time = s.last_call_time := rfl

theorem process_gps_state_calls :
    (process_gps cfg pc geod L s lat lon t).2.calls_for_current_crossing =
      if (pc lon lat != s.last_inside_boundary) then 0
      else s.calls_for_current_crossing := rfl

theorem process_gps_state_crossings :
    (process_gps cfg pc geod L s lat lon t).2.boundary_crossings =
      if (pc lon lat != s.last_inside_boundary) then s.boundary_crossings + 1
      else s.boundary_crossings := rfl

theorem process_gps_total_crossings :
    (process_gps cfg pc geod L s lat lon t).1.total_crossings =
      (process_gps cfg pc geod L s lat lon t).2.boundary_crossings := rfl

theorem process_gps_direction :
    (process_gps cfg pc geod L s lat lon t).1.crossing_direction =
      (if (pc lon lat != s.last_inside_boundary) then
        (if pc lon lat then some CrossingDirection.entered_indian_waters
         else some CrossingDirection.exited_indian_waters)
       else none) := rfl

theorem process_gps_requires :
    (process_gps cfg pc geod L s lat lon t).1.requires_emergency_call =
      ((pc lon lat != s.last_inside_boundary) && !(pc lon lat) &&
        should_make_emergency_call cfg (process_gps cfg pc geod L s lat lon t).2 t) := rfl

theorem stepObs_fst :
    (stepObs cfg pc geod L s o).1 =
      (process_gps cfg pc geod L s o.lat o.lon o.time).1 := by
  cases h : ((process_gps cfg pc geod L s o.lat o.lon o.time).1.requires_emergency_call
      && o.dispatch_success) <;>
    simp [stepObs, h]

theorem stepObs_state_last :
    (stepObs cfg pc geod L s o).2.last_inside_boundary = pc o.lon o.lat := by
  cases h : ((process_gps cfg pc geod L s o.lat o.lon o.time).1.requires_emergency_call
      && o.dispatch_success) <;>
    simp [stepObs, h, process_gps_state_last]

theorem requires_imp_crossed
    (h : (process_gps cfg pc geod L s lat lon t).1.requires_emergency_call = true) :
    (process_gps cfg pc geod L s lat lon t).1.boundary_crossed = true := by
  rw [process_gps_requires] at h
  rw [process_gps_crossed]
  exact (Bool.and_eq_true_iff.mp (Bool.and_eq_true_iff.mp h).1).1

theorem requires_imp_quota_pos
    (h : (process_gps cfg pc geod L s lat lon t).1.requires_emergency_call = true) :
    0 < cfg.max_emergency_calls := by
  rw [process_gps_requires] at h
  have hs := (Bool.and_eq_true_iff.mp h).2
  unfold should_make_emergency_call at hs
  by_cases hm : cfg.max_emergency_calls ≤
      (process_gps cfg pc geod L s lat lon t).2.calls_for_current_crossing
  · rw [if_pos hm] at hs
    exact absurd hs (by simp)
  · omega

end Equations

/-- C1 counterexample: at the state whose committed escalation time is
exactly 0 and at clock value 10, the code authorizes a call although
only 10 seconds of the 30-second cooldown have elapsed, because the
Python truthiness test `if self.last_call_time` treats the float 0.0
like `None`.  So the claimed iff fails at this state. -/
theorem should_make_emergency_call_claim_cex :
    should_make_emergency_call defaultConfig zeroTimeState 10 = true ∧
      claimed_throttle_rule defaultConfig zeroTimeState 10 = false := by
  refine ⟨by decide, ?_⟩
  simp only [claimed_throttle_rule, zeroTimeState, defaultConfig]
  norm_num

/-- C1 amended: the throttle authorizes a call iff the per-episode
counter is below the quota and the last-escalation time is unset, or is
exactly 0 (which Python truthiness treats as unset), or the cooldown has
elapsed since it. -/
theorem should_make_emergency_call_iff (cfg : EngineConfig) (s : EngineState) (now : ℚ) :
    should_make_emergency_call cfg s now = true ↔
      (s.calls_for_current_crossing < cfg.max_emergency_calls ∧
        (s.last_call_time = none ∨ s.last_call_time = some 0 ∨
          ∃ t, s.last_call_time = some t ∧ cfg.call_cooldown_seconds ≤ now - t)) := by
  unfold should_make_emergency_call
  by_cases hq : cfg.max_emergency_calls ≤ s.calls_for_current_crossing
  · simp only [if_pos hq, Bool.false_eq_true, false_iff, not_and]
    intro h _
    exact absurd h (by omega)
  · simp only [if_neg hq]
    cases hl : s.last_call_time with
    | none =>
      dsimp only
      constructor
      · intro _
        exact ⟨by omega, Or.inl rfl⟩
      · intro _
        rfl
    | some u =>
      dsimp only
      by_cases hu : u = 0
      · subst hu
        rw [if_neg (by simp)]
        constructor
        · intro _
          exact ⟨by omega, Or.inr (Or.inl rfl)⟩
        · intro _
          rfl
      · by_cases hcd : now - u < cfg.call_cooldown_seconds
        · rw [if_pos (And.intro hu hcd)]
          simp only [Bool.false_eq_true, false_iff, not_and]
          intro _
          rintro (h | h | ⟨v, hv, hcv⟩)
          · exact Option.noConfusion h
          · rw [Option.some.injEq] at h
            exact hu h
          · rw [Option.some.injEq] at hv
            subst hv
            linarith
        · rw [if_neg (fun h => hcd h.2)]
          constructor
          · intro _
            exact ⟨by omega, Or.inr (Or.inr ⟨u, rfl, by linarith⟩)⟩
          · intro _
            rfl

/-- C3: on every observation, when the newly computed containment
differs from the stored `currentlyInside` (which the engine keeps equal
to `last_inside_boundary`, the field it actually compares), the decision
record reports a crossing in the matching direction and the crossing
count increases by one; when it is equal, no crossing and no direction
are reported and the count is unchanged; in both cases the stored
containment is updated to the new value. -/
theorem process_gps_transition_spec (cfg : EngineConfig) (pc : ℚ → ℚ → Bool)
    (geod : ℚ × ℚ → ℚ × ℚ → ℚ) (L : List (List (ℚ × ℚ))) (s : EngineState)
    (lat lon t : ℚ) (h : s.current_inside_boundary = s.last_inside_boundary) :
    (process_gps cfg pc geod L s lat lon t).1.boundary_crossed
        = ((process_gps cfg pc geod L s lat lon t).1.inside_boundary
            != s.current_inside_boundary) ∧
      (process_gps cfg pc geod L s lat lon t).1.crossing_direction
        = (if (process_gps cfg pc geod L s lat lon t).1.boundary_crossed then
             (if (process_gps cfg pc geod L s lat lon t).1.inside_boundary then
                some CrossingDirection.entered_indian_waters
              else some CrossingDirection.exited_indian_waters)
           else none) ∧
      (process_gps cfg pc geod L s lat lon t).2.boundary_crossings
        = (if (process_gps cfg pc geod L s lat lon t).1.boundary_crossed then
             s.boundary_crossings + 1
           else s.boundary_crossings) ∧
      (process_gps cfg pc geod L s lat lon t).1.total_crossings
        = (process_gps cfg pc geod L s lat lon t).2.boundary_crossings ∧
      (process_gps cfg pc geod L s lat lon t).2.current_inside_boundary
        = (process_gps cfg pc geod L s lat lon t).1.inside_boundary ∧
      (process_gps cfg pc geod L s lat lon t).2.last_inside_boundary
        = (process_gps cfg pc geod L s lat lon t).1.inside_boundary := by
  rw [h]
  exact ⟨rfl, rfl, rfl, rfl, rfl, rfl⟩

/-- C3 witness: the transition characterization instantiated at the
initial state and the outside position (24 N, 67 E) of the demo region. -/
theorem process_gps_transition_spec_witness :
    (process_gps defaultConfig demoPolygonContains zeroGeod demoLines initState 24 67 0).1.boundary_crossed
        = ((process_gps defaultConfig demoPolygonContains zeroGeod demoLines initState 24 67 0).1.inside_boundary
            != initState.current_inside_boundary) ∧
      (process_gps defaultConfig demoPolygonContains zeroGeod demoLines initState 24 67 0).1.crossing_direction
        = (if (process_gps defaultConfig demoPolygonContains zeroGeod demoLines initState 24 67 0).1.boundary_crossed then
             (if (process_gps defaultConfig demoPolygonContains zeroGeod demoLines initState 24 67 0).1.inside_boundary then
                some CrossingDirection.entered_indian_waters
              else some CrossingDirection.exited_indian_waters)
           else none) ∧
      (process_gps defaultConfig demoPolygonContains zeroGeod demoLines initState 24 67 0).2.boundary_crossings
        = (if (process_gps defaultConfig demoPolygonContains zeroGeod demoLines initState 24 67 0).1.boundary_crossed then
             initState.boundary_crossings + 1
           else initState.boundary_crossings) ∧
      (process_gps defaultConfig demoPolygonContains zeroGeod demoLines initState 24 67 0).1.total_crossings
        = (process_gps defaultConfig demoPolygonContains zeroGeod demoLines initState 24 67 0).2.boundary_crossings ∧
      (process_gps defaultConfig demoPolygonContains zeroGeod demoLines initState 24 67 0).2.current_inside_boundary
        = (process_gps defaultConfig demoPolygonContains zeroGeod demoLines initState 24 67 0).1.inside_boundary ∧
      (process_gps defaultConfig demoPolygonContains zeroGeod demoLines initState 24 67 0).2.last_inside_boundary
        = (process_gps defaultConfig demoPolygonContains zeroGeod demoLines initState 24 67 0).1.inside_boundary :=
  process_gps_transition_spec defaultConfig demoPolygonContains zeroGeod demoLines
    initState 24 67 0 (by decide)

/-- C4: the per-episode call counter is set to 0 by an observation
exactly when that observation detects a transition, in either direction,
and is otherwise left unchanged by the observation; concretely, after
crossing out (one call committed), re-entering, and exiting again, the
counter has restarted at 0. -/
theorem calls_reset_exactly_on_transition :
    (∀ (cfg : EngineConfig) (pc : ℚ → ℚ → Bool) (geod : ℚ × ℚ → ℚ × ℚ → ℚ)
        (L : List (List (ℚ × ℚ))) (s : EngineState) (lat lon t : ℚ),
      (process_gps cfg pc geod L s lat lon t).2.calls_for_current_crossing
        = (if (process_gps cfg pc geod L s lat lon t).1.boundary_crossed then 0
           else s.calls_for_current_crossing)) ∧
      (runState defaultConfig demoPolygonContains zeroGeod demoLines initState
        [outsideObsCommit0]).calls_for_current_crossing = 1 ∧
      (runState defaultConfig demoPolygonContains zeroGeod demoLines initState
        [outsideObsCommit0, insideObs]).calls_for_current_crossing = 0 ∧
      (runState defaultConfig demoPolygonContains zeroGeod demoLines initState
        [outsideObsCommit0, insideObs, outsideObsFail]).calls_for_current_crossing = 0 ∧
      (runResults defaultConfig demoPolygonContains zeroGeod demoLines initState
        [outsideObsCommit0, insideObs, outsideObsFail]).map
          (fun r => r.boundary_crossed) = [true, true, true] :=
  ⟨fun _ _ _ _ _ _ _ _ => rfl, by decide, by decide, by decide, by decide⟩

/-- C6: an out-of-range latitude or longitude is rejected by the `/gps`
endpoint with the invalid-coordinates error before the engine runs: the
returned session state is exactly the state passed in. -/
theorem gps_endpoint_rejects_out_of_range (cfg : EngineConfig)
    (pc : ℚ → ℚ → Bool) (geod : ℚ × ℚ → ℚ × ℚ → ℚ)
    (L : List (List (ℚ × ℚ))) (s : EngineState) (lat lon t : ℚ)
    (succ : Bool) (ct : ℚ)
    (h : lat < -90 ∨ 90 < lat ∨ lon < -180 ∨ 180 < lon) :
    gps_endpoint cfg pc geod L s lat lon t succ ct
      = (Except.error ApiError.invalid_coordinates, s) := by
  have hcond : ¬(-90 ≤ lat ∧ lat ≤ 90) ∨ ¬(-180 ≤ lon ∧ lon ≤ 180) := by
    rcases h with h | h | h | h
    · exact Or.inl (fun hc => absurd hc.1 (by linarith))
    · exact Or.inl (fun hc => absurd hc.2 (by linarith))
    · exact Or.inr (fun hc => absurd hc.1 (by linarith))
    · exact Or.inr (fun hc => absurd hc.2 (by linarith))
  unfold gps_endpoint
  rw [if_pos hcond]

/-- C6 witness: latitude 100 is rejected and the initial session state
is returned untouched. -/
theorem gps_endpoint_rejects_out_of_range_witness :
    gps_endpoint defaultConfig demoPolygonContains zeroGeod demoLines initState
        100 0 0 true 0
      = (Except.error ApiError.invalid_coordinates, initState) :=
  gps_endpoint_rejects_out_of_range defaultConfig demoPolygonContains zeroGeod
    demoLines initState 100 0 0 true 0 (by norm_num)

/-- C7: the caller-side commit updates the cooldown timestamp and the
per-episode counter exactly when the engine authorized the call and the
external dispatch succeeded; otherwise the timestamp keeps its previous
value and the counter keeps the value the observation itself produced,
so a failed dispatch consumes neither quota nor cooldown. -/
theorem escalation_commit_spec (cfg : EngineConfig) (pc : ℚ → ℚ → Bool)
    (geod : ℚ × ℚ → ℚ × ℚ → ℚ) (L : List (List (ℚ × ℚ)))
    (s : EngineState) (o : Obs) :
    (stepObs cfg pc geod L s o).2.last_call_time
        = (if ((process_gps cfg pc geod L s o.lat o.lon o.time).1.requires_emergency_call
              && o.dispatch_success) then some o.commit_time
           else s.last_call_time) ∧
      (stepObs cfg pc geod L s o).2.calls_for_current_crossing
        = (if ((process_gps cfg pc geod L s o.lat o.lon o.time).1.requires_emergency_call
              && o.dispatch_success) then
             (process_gps cfg pc geod L s o.lat o.lon o.time).2.calls_for_current_crossing + 1
           else (process_gps cfg pc geod L s o.lat o.lon o.time).2.calls_for_current_crossing) := by
  cases h : ((process_gps cfg pc geod L s o.lat o.lon o.time).1.requires_emergency_call
      && o.dispatch_success) <;>
    simp [stepObs, h, process_gps_state_call_time]

/-- C7 witness: with a quota of one call per episode, the crossing-out
observation at clock 0 authorizes a call whose dispatch fails; after
re-entering and exiting again at clock 20 the engine authorizes again,
because the failure consumed neither the quota nor the cooldown; and the
commit characterization instantiated at the failing first step. -/
theorem escalation_commit_spec_witness :
    (runResults quotaOneConfig demoPolygonContains zeroGeod demoLines initState
        [quotaOneObs1, quotaOneObs2, quotaOneObs3]).map
          (fun r => r.requires_emergency_call) = [true, false, true] ∧
      (stepObs quotaOneConfig demoPolygonContains zeroGeod demoLines initState
          quotaOneObs1).2.last_call_time
        = (if ((process_gps quotaOneConfig demoPolygonContains zeroGeod demoLines
                initState quotaOneObs1.lat quotaOneObs1.lon
                quotaOneObs1.time).1.requires_emergency_call
              && quotaOneObs1.dispatch_success) then some quotaOneObs1.commit_time
           else initState.last_call_time) ∧
      (stepObs quotaOneConfig demoPolygonContains zeroGeod demoLines initState
          quotaOneObs1).2.calls_for_current_crossing
        = (if ((process_gps quotaOneConfig demoPolygonContains zeroGeod demoLines
                initState quotaOneObs1.lat quotaOneObs1.lon
                quotaOneObs1.time).1.requires_emergency_call
              && quotaOneObs1.dispatch_success) then
             (process_gps quotaOneConfig demoPolygonContains zeroGeod demoLines
               initState quotaOneObs1.lat quotaOneObs1.lon
               quotaOneObs1.time).2.calls_for_current_crossing + 1
           else (process_gps quotaOneConfig demoPolygonContains zeroGeod demoLines
               initState quotaOneObs1.lat quotaOneObs1.lon
               quotaOneObs1.time).2.calls_for_current_crossing) :=
  ⟨by decide,
    (escalation_commit_spec quotaOneConfig demoPolygonContains zeroGeod demoLines
      initState quotaOneObs1).1,
    (escalation_commit_spec quotaOneConfig demoPolygonContains zeroGeod demoLines
      initState quotaOneObs1).2⟩

/-- C10: a position lying exactly on the boundary of the demo region
rectangle is classified as not inside, because shapely polygon
containment is strict (boundary-exclusive). -/
theorem boundary_point_classified_outside (lat lon : ℚ)
    (h : ((lon = 68 ∨ lon = 75) ∧ 20 ≤ lat ∧ lat ≤ 26) ∨
      ((lat = 20 ∨ lat = 26) ∧ 68 ≤ lon ∧ lon ≤ 75))
    (cfg : EngineConfig) (geod : ℚ × ℚ → ℚ × ℚ → ℚ)
    (L : List (List (ℚ × ℚ))) (s : EngineState) (t : ℚ) :
    (process_gps cfg demoPolygonContains geod L s lat lon t).1.inside_boundary = false := by
  rw [process_gps_inside]
  unfold demoPolygonContains
  rcases h with ⟨h | h, -⟩ | ⟨h | h, -⟩ <;> subst h <;> simp

/-- C2 (code-bug evidence): after the crossing-out observation at clock
0 whose call is committed at clock 5, a second consecutive outside
observation at clock 975 — long past the 30-second cooldown and with
only one of the three quota slots used — has
`requires_emergency_call = false`, even though the throttle, had it been
queried, would have authorized: `process_gps` consults the throttle only
when `boundary_crossed` holds, not on every outside observation. -/
theorem sustained_outside_not_requeried :
    (stepObs defaultConfig demoPolygonContains zeroGeod demoLines initState
        sustainedOutObs1).1.requires_emergency_call = true ∧
      (stepObs defaultConfig demoPolygonContains zeroGeod demoLines initState
        sustainedOutObs1).2 = sustainedOutState1 ∧
      (stepObs defaultConfig demoPolygonContains zeroGeod demoLines
        sustainedOutState1 sustainedOutObs2).1.inside_boundary = false ∧
      should_make_emergency_call defaultConfig
        (process_gps defaultConfig demoPolygonContains zeroGeod demoLines
          sustainedOutState1 24 67 975).2 975 = true ∧
      (stepObs defaultConfig demoPolygonContains zeroGeod demoLines
        sustainedOutState1 sustainedOutObs2).1.requires_emergency_call = false := by
  refine ⟨by decide, by decide, by decide, ?_, by decide⟩
  have hcalls : (process_gps defaultConfig demoPolygonContains zeroGeod demoLines
      sustainedOutState1 24 67 975).2.calls_for_current_crossing = 1 := by
    rw [process_gps_state_calls]
    decide
  have htime : (process_gps defaultConfig demoPolygonContains zeroGeod demoLines
      sustainedOutState1 24 67 975).2.last_call_time = some 5 := by
    rw [process_gps_state_call_time]
    decide
  unfold should_make_emergency_call
  rw [hcalls, htime, if_neg (by decide)]
  dsimp only
  rw [if_neg (by norm_num [defaultConfig])]

theorem minCombine_none_right (a : Option ℚ) : minCombine a none = a := by
  cases a <;> rfl

theorem minCombine_minFold (acc : Option ℚ) (x : ℚ) (r : Option ℚ) :
    minCombine (minFold acc x) r = minCombine acc (minCombine (some x) r) := by
  cases acc <;> cases r <;> simp [minFold, minCombine, min_assoc]

theorem foldl_minFold_eq (l : List ℚ) :
    ∀ acc : Option ℚ, l.foldl minFold acc = minCombine acc (runMin l) := by
  induction l with
  | nil =>
    intro acc
    exact (minCombine_none_right acc).symm
  | cons x xs ih =>
    intro acc
    rw [List.foldl_cons, ih (minFold acc x)]
    have hx : runMin (x :: xs) = minCombine (some x) (runMin xs) := by
      rw [runMin, List.foldl_cons]
      exact ih (minFold none x)
    rw [hx, minCombine_minFold]

theorem runMin_cons (x : ℚ) (l : List ℚ) :
    runMin (x :: l) = minCombine (some x) (runMin l) := by
  rw [runMin, List.foldl_cons]
  exact foldl_minFold_eq l (minFold none x)

theorem runMin_append (l1 l2 : List ℚ) :
    runMin (l1 ++ l2) = minCombine (runMin l1) (runMin l2) := by
  rw [runMin, List.foldl_append]
  exact foldl_minFold_eq l2 (runMin l1)

theorem minCombine_absorb (a : ℚ) (r : Option ℚ) :
    minCombine (some a) (minCombine (some a) r) = minCombine (some a) r := by
  cases r <;> simp [minCombine, min_self, ← min_assoc]

/-- With at least two vertices per line, the running minimum over the
duplicated segment-endpoint list equals the running minimum over the
plain vertex list. -/
theorem runMin_sed (d : ℚ × ℚ → ℚ) :
    ∀ coords : List (ℚ × ℚ), 2 ≤ coords.length →
      runMin (segment_endpoint_distances d coords) = runMin (coords.map d)
  | [], h => absurd h (by simp)
  | [_], h => absurd h (by simp)
  | [_, _], _ => rfl
  | p :: q :: r :: rest, _ => by
    have ih := runMin_sed d (q :: r :: rest) (by simp)
    show runMin (d p :: d q :: segment_endpoint_distances d (q :: r :: rest))
        = runMin (d p :: d q :: d r :: List.map d rest)
    have hS : runMin (segment_endpoint_distances d (q :: r :: rest))
        = minCombine (some (d q)) (runMin (d r :: List.map d rest)) := by
      rw [ih]
      exact runMin_cons (d q) (d r :: List.map d rest)
    conv_lhs => rw [runMin_cons, runMin_cons, hS]
    conv_rhs => rw [runMin_cons, runMin_cons]
    rw [minCombine_absorb]

theorem runMin_flatten_sed (d : ℚ × ℚ → ℚ) (ls : List (List (ℚ × ℚ)))
    (h : ∀ l ∈ ls, 2 ≤ l.length) :
    runMin ((ls.map (segment_endpoint_distances d)).flatten)
      = runMin (ls.flatten.map d) := by
  induction ls with
  | nil => rfl
  | cons l ls ih =>
    rw [List.map_cons, List.flatten_cons, runMin_append, List.flatten_cons,
      List.map_append, runMin_append]
    rw [runMin_sed d l (h l (by simp)), ih (fun x hx => h x (by simp [hx]))]

/-- C5: when every configured boundary line has at least two vertices
(as GeoJSON line strings do), the reported distance is the minimum over
all lines and all their vertices of the pairwise distance from the
position to the vertex; and with no boundary lines configured the
reported distance is exactly 0 rather than an error. -/
theorem calculate_boundary_distance_spec (geod : ℚ × ℚ → ℚ × ℚ → ℚ)
    (boundary_lines : List (List (ℚ × ℚ))) (lat lon : ℚ)
    (h : ∀ l ∈ boundary_lines, 2 ≤ l.length) :
    calculate_boundary_distance geod boundary_lines lat lon
        = vertex_min_distance geod boundary_lines lat lon ∧
      calculate_boundary_distance geod [] lat lon = 0 := by
  refine ⟨?_, rfl⟩
  unfold calculate_boundary_distance vertex_min_distance
  rw [runMin_flatten_sed (fun p => geod (lat, lon) (p.2, p.1)) boundary_lines h]

/-- C5 witness: the vertex-minimum description instantiated at the demo
boundary line with a concrete pairwise distance. -/
theorem calculate_boundary_distance_spec_witness :
    calculate_boundary_distance taxicabMeters demoLines 22 69
        = vertex_min_distance taxicabMeters demoLines 22 69 ∧
      calculate_boundary_distance taxicabMeters [] 22 69 = 0 :=
  calculate_boundary_distance_spec taxicabMeters demoLines 22 69 (by decide)

theorem stepObs_inside (cfg : EngineConfig) (pc : ℚ → ℚ → Bool)
    (geod : ℚ × ℚ → ℚ × ℚ → ℚ) (L : List (List (ℚ × ℚ)))
    (s : EngineState) (o : Obs) :
    (stepObs cfg pc geod L s o).1.inside_boundary = pc o.lon o.lat := by
  rw [stepObs_fst]
  rfl

theorem stepObs_crossed (cfg : EngineConfig) (pc : ℚ → ℚ → Bool)
    (geod : ℚ × ℚ → ℚ × ℚ → ℚ) (L : List (List (ℚ × ℚ)))
    (s : EngineState) (o : Obs) :
    (stepObs cfg pc geod L s o).1.boundary_crossed
      = (pc o.lon o.lat != s.last_inside_boundary) := by
  rw [stepObs_fst]
  exact process_gps_crossed cfg pc geod L s o.lat o.lon o.time

theorem stepObs_requires_imp_crossed (cfg : EngineConfig) (pc : ℚ → ℚ → Bool)
    (geod : ℚ × ℚ → ℚ × ℚ → ℚ) (L : List (List (ℚ × ℚ)))
    (s : EngineState) (o : Obs)
    (h : (stepObs cfg pc geod L s o).1.requires_emergency_call = true) :
    (stepObs cfg pc geod L s o).1.boundary_crossed = true := by
  rw [stepObs_fst] at h ⊢
  exact requires_imp_crossed cfg pc geod L s o.lat o.lon o.time h

theorem stepObs_requires_imp_quota_pos (cfg : EngineConfig) (pc : ℚ → ℚ → Bool)
    (geod : ℚ × ℚ → ℚ × ℚ → ℚ) (L : List (List (ℚ × ℚ)))
    (s : EngineState) (o : Obs)
    (h : (stepObs cfg pc geod L s o).1.requires_emergency_call = true) :
    0 < cfg.max_emergency_calls := by
  rw [stepObs_fst] at h
  exact requires_imp_quota_pos cfg pc geod L s o.lat o.lon o.time h

/-- In a run that starts with the stored containment already outside,
every decision record of an all-outside segment aligned with the start
of the run reports no transition, hence no authorization. -/
theorem countP_requires_zero_of_outside_run (cfg : EngineConfig)
    (pc : ℚ → ℚ → Bool) (geod : ℚ × ℚ → ℚ × ℚ → ℚ)
    (L : List (List (ℚ × ℚ))) :
    ∀ (os : List Obs) (s : EngineState), s.last_inside_boundary = false →
      ∀ (seg post : List GpsResult),
        runResults cfg pc geod L s os = seg ++ post →
        (∀ r ∈ seg, r.inside_boundary = false) →
        seg.countP (fun r => r.requires_emergency_call) = 0 := by
  intro os
  induction os with
  | nil =>
    intro s hs seg post heq hseg
    rw [runResults] at heq
    have hnil : seg = [] := (List.append_eq_nil.mp heq.symm).1
    subst hnil
    rfl
  | cons o os ih =>
    intro s hs seg post heq hseg
    rw [runResults] at heq
    cases seg with
    | nil => rfl
    | cons r0 seg2 =>
      rw [List.cons_append] at heq
      injection heq with h0 hrest
      have hin : r0.inside_boundary = false := hseg r0 (by simp)
      have hin2 : pc o.lon o.lat = false := by
        rw [← h0, stepObs_inside] at hin
        exact hin
      have hcross : r0.boundary_crossed = false := by
        rw [← h0, stepObs_crossed, hin2, hs]
        rfl
      have hreq : r0.requires_emergency_call = false := by
        cases hb : r0.requires_emergency_call
        · rfl
        · exfalso
          rw [← h0] at hb
          have hc2 := stepObs_requires_imp_crossed cfg pc geod L s o hb
          rw [h0, hcross] at hc2
          exact Bool.noConfusion hc2
      have h2 : seg2.countP (fun r => r.requires_emergency_call) = 0 := by
        refine ih (stepObs cfg pc geod L s o).2 ?_ seg2 post hrest
          (fun r hr => hseg r (by simp [hr]))
        rw [stepObs_state_last]
        exact hin2
      rw [List.countP_cons, h2]
      simp [hreq]

/-- C8: along any observation sequence, any contiguous segment of the
decision-record list whose records are all outside the region contains
at most `MAX_EMERGENCY_CALLS` records with `requires_emergency_call`
true (in fact at most one, since only the crossing edge is queried). -/
theorem episode_escalations_le_quota (cfg : EngineConfig)
    (pc : ℚ → ℚ → Bool) (geod : ℚ × ℚ → ℚ × ℚ → ℚ)
    (L : List (List (ℚ × ℚ))) :
    ∀ (os : List Obs) (s : EngineState) (pre seg post : List GpsResult),
      runResults cfg pc geod L s os = pre ++ seg ++ post →
      (∀ r ∈ seg, r.inside_boundary = false) →
      seg.countP (fun r => r.requires_emergency_call) ≤ cfg.max_emergency_calls := by
  intro os
  induction os with
  | nil =>
    intro s pre seg post heq hseg
    rw [runResults] at heq
    have hnil : seg = [] :=
      (List.append_eq_nil.mp (List.append_eq_nil.mp heq.symm).1).2
    subst hnil
    simp
  | cons o os ih =>
    intro s pre seg post heq hseg
    rw [runResults] at heq
    cases pre with
    | cons p0 pre2 =>
      rw [List.cons_append] at heq
      injection heq with h0 hrest
      exact ih (stepObs cfg pc geod L s o).2 pre2 seg post hrest hseg
    | nil =>
      rw [List.nil_append] at heq
      cases seg with
      | nil => simp
      | cons r0 seg2 =>
        rw [List.cons_append] at heq
        injection heq with h0 hrest
        have h2 : seg2.countP (fun r => r.requires_emergency_call) = 0 := by
          refine countP_requires_zero_of_outside_run cfg pc geod L os
            (stepObs cfg pc geod L s o).2 ?_ seg2 post hrest
            (fun r hr => hseg r (by simp [hr]))
          rw [stepObs_state_last]
          have hin : r0.inside_boundary = false := hseg r0 (by simp)
          rw [← h0, stepObs_inside] at hin
          exact hin
        rw [List.countP_cons, h2]
        cases hb : r0.requires_emergency_call
        · simp
        · have hq : 0 < cfg.max_emergency_calls := by
            rw [← h0] at hb
            exact stepObs_requires_imp_quota_pos cfg pc geod L s o hb
          simp [hb]
          omega

/-- C8 witness: a two-observation sustained-outside run from the initial
state authorizes at most the quota of the default configuration. -/
theorem episode_escalations_le_quota_witness :
    (∀ r ∈ runResults defaultConfig demoPolygonContains zeroGeod demoLines
        initState [outsideObsCommit0, outsideObsFail], r.inside_boundary = false) ∧
      (runResults defaultConfig demoPolygonContains zeroGeod demoLines
          initState [outsideObsCommit0, outsideObsFail]).countP
        (fun r => r.requires_emergency_call) ≤ defaultConfig.max_emergency_calls :=
  ⟨by decide,
    episode_escalations_le_quota defaultConfig demoPolygonContains zeroGeod demoLines
      [outsideObsCommit0, outsideObsFail] initState []
      (runResults defaultConfig demoPolygonContains zeroGeod demoLines
        initState [outsideObsCommit0, outsideObsFail]) []
      (by simp) (by decide)⟩

/-- C10 witness: the point (22 N, 68 E) on the western edge of the demo
rectangle is classified as outside. -/
theorem boundary_point_classified_outside_witness :
    (process_gps defaultConfig demoPolygonContains zeroGeod demoLines initState
      22 68 0).1.inside_boundary = false :=
  boundary_point_classified_outside 22 68 (by norm_num) defaultConfig zeroGeod
    demoLines initState 0

end Geofencing
